import Mathlib

/-
  Verification development for the MPK-Mini-Plus-Editor repository.

  The repository's source under `src/` contains the UI layer
  (`src/ui/main_ui.py`, class `UiMainWindow`).  The configuration codec
  (`core.config.Config`) and the MIDI transport (`core.midi_interface.AkaiMPKPlus`)
  are imported by that file but their code is not present; those parts are
  modelled from the specification, with doc comments marking each such
  definition.  Everything else is a direct shallow embedding of
  `src/ui/main_ui.py`.
-/

/-- Modelled from the spec: `core.config` `MalformedInput` — the codec decode
failure condition (spec section 4.2 / section 7); the class itself is missing from
`src/`. -/
inductive CodecError where
  | MalformedInput
deriving DecidableEq, Repr

/-- Modelled from the spec: one `PadBinding` of `core.config.Config` (missing
from `src/`): an event-type selector (0 = note, 1 = control change,
2 = program change), its 7-bit numeric payload and a trigger mode
(0 = momentary, 1 = toggle). -/
structure PadBinding where
  ptype : Nat
  value : Nat
  mode : Nat
deriving DecidableEq, Repr

/-- Modelled from the spec: the `PadBinding` invariant — selector in domain and
a valid 7-bit payload. -/
def PadBinding.is_valid (p : PadBinding) : Bool :=
  p.ptype ≤ 2 && p.value ≤ 127 && p.mode ≤ 1

/-- Modelled from the spec: one `KnobBinding` of `core.config.Config` (missing
from `src/`): a control-change number and a [min,max] output range. -/
structure KnobBinding where
  cc : Nat
  low : Nat
  high : Nat
deriving DecidableEq, Repr

/-- Modelled from the spec: the `KnobBinding` invariant — cc and bounds in the
7-bit MIDI value domain and min ≤ max. -/
def KnobBinding.is_valid (k : KnobBinding) : Bool :=
  k.cc ≤ 127 && k.low ≤ k.high && k.high ≤ 127

/-- Modelled from the spec: the `MiscSettings` block of `core.config.Config`
(missing from `src/`): arpeggiator mode, joystick behaviour mode, clock source
and octave offset, each with its own legal domain. -/
structure MiscSettings where
  arp_mode : Nat
  joystick_mode : Nat
  clock_source : Nat
  octave : Nat
deriving DecidableEq, Repr

/-- Modelled from the spec: the `MiscSettings` domains. -/
def MiscSettings.is_valid (m : MiscSettings) : Bool :=
  m.arp_mode ≤ 5 && m.joystick_mode ≤ 2 && m.clock_source ≤ 1 && m.octave ≤ 8

/-- Fixed number of pads of the device model. -/
def numPads : Nat := 8

/-- Fixed number of knobs of the device model. -/
def numKnobs : Nat := 8

/-- Modelled from the spec: `core.config.Config` (missing from `src/`) — the
aggregate of programme slot, channel assignment, pad bindings, knob bindings
and misc settings (spec section 3).  The UI code in `src/ui/main_ui.py` reads and
writes the attributes `programme`, `pad_channel` and `key_channel` directly. -/
structure Config where
  programme : Nat
  pad_channel : Nat
  key_channel : Nat
  pads : List PadBinding
  knobs : List KnobBinding
  misc : MiscSettings
deriving DecidableEq, Repr

/-- Modelled from the spec: a fresh `Config()` as constructed throughout
`src/ui/main_ui.py` — "created fresh (zero/default) by the UI". -/
def Config.default : Config :=
  { programme := 0, pad_channel := 0, key_channel := 0, pads := [], knobs := [],
    misc := { arp_mode := 0, joystick_mode := 0, clock_source := 0, octave := 0 } }

/-- Modelled from the spec: the validation predicate `is_valid()` of
`core.config.Config` checking every invariant of spec section 3. -/
def Config.is_valid (c : Config) : Bool :=
  c.programme ≤ 8 &&
  1 ≤ c.pad_channel && c.pad_channel ≤ 16 &&
  1 ≤ c.key_channel && c.key_channel ≤ 16 &&
  c.pads.length == numPads && c.pads.all PadBinding.is_valid &&
  c.knobs.length == numKnobs && c.knobs.all KnobBinding.is_valid &&
  c.misc.is_valid

/-- Modelled from the spec: the fixed-width wire record of one pad. -/
def PadBinding.serialize (p : PadBinding) : List Nat :=
  [p.ptype, p.value, p.mode]

/-- Modelled from the spec: the fixed-width wire record of one knob. -/
def KnobBinding.serialize (k : KnobBinding) : List Nat :=
  [k.cc, k.low, k.high]

/-- Modelled from the spec: the misc-settings block of the wire layout. -/
def MiscSettings.serialize (m : MiscSettings) : List Nat :=
  [m.arp_mode, m.joystick_mode, m.clock_source, m.octave]

/-- Modelled from the spec: `Config.serialize` of `core.config.Config` (missing
from `src/`) — the deterministic fixed-layout encoding: leading slot byte,
channel bytes, one fixed-width record per pad, one per knob, then the
misc block, in that exact order (spec section 4.2). -/
def Config.serialize (c : Config) : List Nat :=
  c.programme :: c.pad_channel :: c.key_channel ::
    ((c.pads.map PadBinding.serialize).flatten ++
     (c.knobs.map KnobBinding.serialize).flatten ++
     c.misc.serialize)

/-- Modelled from the spec: the decode loop over `n` fixed-width pad records;
fails on a short list or an out-of-domain field. -/
def parsePads : Nat → List Nat → Option (List PadBinding × List Nat)
  | 0, rest => some ([], rest)
  | n + 1, t :: v :: m :: rest =>
    let p : PadBinding := { ptype := t, value := v, mode := m }
    if p.is_valid then
      match parsePads n rest with
      | some (ps, rest') => some (p :: ps, rest')
      | none => none
    else none
  | _ + 1, _ => none

/-- Modelled from the spec: the decode loop over `n` fixed-width knob records;
fails on a short list or an out-of-domain field. -/
def parseKnobs : Nat → List Nat → Option (List KnobBinding × List Nat)
  | 0, rest => some ([], rest)
  | n + 1, cc :: lo :: hi :: rest =>
    let k : KnobBinding := { cc := cc, low := lo, high := hi }
    if k.is_valid then
      match parseKnobs n rest with
      | some (ks, rest') => some (k :: ks, rest')
      | none => none
    else none
  | _ + 1, _ => none

/-- Modelled from the spec: decoding of the trailing misc-settings block; the
block must be exactly the fixed layout's remaining bytes, each in domain. -/
def parseMisc : List Nat → Option MiscSettings
  | [a, j, cl, o] =>
    let m : MiscSettings :=
      { arp_mode := a, joystick_mode := j, clock_source := cl, octave := o }
    if m.is_valid then some m else none
  | _ => none

/-- Modelled from the spec: the body of the decoder — header bytes with their
domain checks, then the pad records, the knob records and the misc block, which
must consume the input exactly. -/
def decodeConfig : List Nat → Option Config
  | prog :: padch :: keych :: rest =>
    if prog ≤ 8 && 1 ≤ padch && padch ≤ 16 && 1 ≤ keych && keych ≤ 16 then
      (parsePads numPads rest).bind fun pr =>
      (parseKnobs numKnobs pr.2).bind fun kr =>
      (parseMisc kr.2).map fun m =>
        { programme := prog, pad_channel := padch, key_channel := keych,
          pads := pr.1, knobs := kr.1, misc := m }
    else none
  | _ => none

/-- Modelled from the spec: `Config.parse_config` of `core.config.Config`
(missing from `src/`) — the decoder: exact left inverse of `serialize` on its
image, failing with `MalformedInput` when the length does not match the fixed
layout or any field value falls outside its legal domain (spec section 4.2). -/
def Config.parse_config (bs : List Nat) : Except CodecError Config :=
  match decodeConfig bs with
  | some c => .ok c
  | none => .error .MalformedInput

/-- Modelled from the spec: the persistent widget state of one programme tab —
what the tab's `misc` layout, `pads_group_box` and `knobs_group_box` together
store (`ui.programmes` is missing from `src/`; spec section 9 abstracts the widget
groups as a mapping between named `Config` fields and UI controls).  The misc
layout holds the channel assignment and the misc settings; the two group boxes
hold the pad and knob bindings.  The programme slot is not a widget. -/
structure TabState where
  pad_channel : Nat
  key_channel : Nat
  pads : List PadBinding
  knobs : List KnobBinding
  misc : MiscSettings
deriving DecidableEq, Repr

/-- The state of `UiMainWindow` relevant to the embedded operations: the eight
programme tabs (`self.progs`, indexed from 0) and the index of the currently
active tab (`self.programmes.currentIndex()`).  Note the window holds no
`Config` field: configurations are constructed fresh inside each operation. -/
structure WindowState where
  tabs : Nat → TabState
  activeIndex : Nat

/-- Modelled from the spec: `fill(Configuration)` of the three widget groups —
the tab state that displaying `c` produces. -/
def Config.toTab (c : Config) : TabState :=
  { pad_channel := c.pad_channel, key_channel := c.key_channel,
    pads := c.pads, knobs := c.knobs, misc := c.misc }

/-- Embedding of `UiMainWindow.get_active_tab_index` (src/ui/main_ui.py:110). -/
def get_active_tab_index (w : WindowState) : Nat :=
  w.activeIndex

/-- Embedding of `UiMainWindow.fill_tab` (src/ui/main_ui.py:114): fill the
widget groups of tab `p_i` from `config`. -/
def fill_tab (w : WindowState) (config : Config) (p_i : Nat) : WindowState :=
  { w with tabs := Function.update w.tabs p_i config.toTab }

/-- Embedding of `UiMainWindow.get_tab_programme` (src/ui/main_ui.py:121):
`config.add_values` is applied to the slot value `p_i + 1` and then to the
values of the three widget groups of tab `p_i`; together these assign every
field of the configuration, so the result overrides every field of the
passed-in `config` (the widget value dictionaries are modelled from the spec,
the widget classes being missing from `src/`). -/
def get_tab_programme (config : Config) (w : WindowState) (p_i : Nat) : Config :=
  let t := w.tabs p_i
  { config with
    programme := p_i + 1,
    pad_channel := t.pad_channel, key_channel := t.key_channel,
    pads := t.pads, knobs := t.knobs, misc := t.misc }

/-- Events observable at the boundary to `core.midi_interface.AkaiMPKPlus`
(missing from `src/`): a programme fetch for a slot, or a raw outgoing
message handed to `send_midi_message`. -/
inductive MidiEvent where
  | fetch (slot : Nat)
  | send (msg : List Nat)
deriving DecidableEq, Repr

/-- Embedding of `UiMainWindow.get_programme` (src/ui/main_ui.py:162), which
forwards to `self.midi.get_programme(p_i)`.  Modelled from the spec: the
transport's fetch returns the decoded configuration of the requested slot;
`dev` abstracts the device's reply per slot.  The event trace records the
requested slot. -/
def get_programme (dev : Nat → Config) (p_i : Nat) : Config × List MidiEvent :=
  (dev p_i, [MidiEvent.fetch p_i])

/-- Embedding of `UiMainWindow.get_ram` (src/ui/main_ui.py:152): fetch slot 0
and fill the active tab with the result. -/
def get_ram (dev : Nat → Config) (w : WindowState) :
    Config × WindowState × List MidiEvent :=
  let p_i := get_active_tab_index w
  let r := get_programme dev 0
  (r.1, fill_tab w r.1 p_i, r.2)

/-- Embedding of `UiMainWindow.get_active_programme` (src/ui/main_ui.py:142):
fetch slot `active + 1` and fill the active tab with the result. -/
def get_active_programme (dev : Nat → Config) (w : WindowState) :
    Config × WindowState × List MidiEvent :=
  let p_i := get_active_tab_index w
  let r := get_programme dev (p_i + 1)
  (r.1, fill_tab w r.1 p_i, r.2)

/-- The loop body of `UiMainWindow.get_all_programmes` over the remaining tab
indices: fetch slot `p_i + 1`, fill tab `p_i`, accumulate the configs and the
event trace. -/
def get_all_programmes_loop (dev : Nat → Config) :
    List Nat → WindowState → List Config × WindowState × List MidiEvent
  | [], w => ([], w, [])
  | p_i :: rest, w =>
    let r := get_programme dev (p_i + 1)
    let w1 := fill_tab w r.1 p_i
    let z := get_all_programmes_loop dev rest w1
    (r.1 :: z.1, z.2.1, r.2 ++ z.2.2)

/-- Embedding of `UiMainWindow.get_all_programmes` (src/ui/main_ui.py:130):
for `p_i` in `range(0, 8)` fetch slot `p_i + 1` and fill tab `p_i`. -/
def get_all_programmes (dev : Nat → Config) (w : WindowState) :
    List Config × WindowState × List MidiEvent :=
  get_all_programmes_loop dev (List.range 8) w

/-- Embedding of `UiMainWindow.send_programme` (src/ui/main_ui.py:188): build a
fresh `Config()`, read tab `p_i` into it, and pass its `serialize()` bytes to
`self.midi.send_midi_message`. -/
def send_programme (w : WindowState) (p_i : Nat) : List MidiEvent :=
  let config := Config.default
  let message := get_tab_programme config w p_i
  [MidiEvent.send message.serialize]

/-- Embedding of `UiMainWindow.send_all_programmes` (src/ui/main_ui.py:178). -/
def send_all_programmes (w : WindowState) : List MidiEvent :=
  ((List.range 8).map (fun p_i => send_programme w p_i)).flatten

/-- Embedding of `UiMainWindow.send_active_programme` (src/ui/main_ui.py:183). -/
def send_active_programme (w : WindowState) : List MidiEvent :=
  send_programme w (get_active_tab_index w)

/-- Embedding of `UiMainWindow.send_ram` (src/ui/main_ui.py:194): read the
active tab into a fresh `Config()`, force its `programme` attribute to 0, and
send its `serialize()` bytes. -/
def send_ram (w : WindowState) : List MidiEvent :=
  let p_i := get_active_tab_index w
  let config := Config.default
  let out_message := get_tab_programme config w p_i
  let out_message2 := { out_message with programme := 0 }
  [MidiEvent.send out_message2.serialize]

/-- Embedding of `UiMainWindow.copy_to` (src/ui/main_ui.py:169): read the
active tab into a fresh `Config()`, increment `pad_channel` and `key_channel`
by one each, and fill tab `p_to - 1` with the result.  No MIDI traffic. -/
def copy_to (w : WindowState) (p_to : Nat) : WindowState × List MidiEvent :=
  let p_from := get_active_tab_index w
  let config := Config.default
  let conf := get_tab_programme config w p_from
  let conf2 := { conf with pad_channel := conf.pad_channel + 1,
                           key_channel := conf.key_channel + 1 }
  (fill_tab w conf2 (p_to - 1), [])

/-- Embedding of `UiMainWindow.load_mpkminiplus` (src/ui/main_ui.py:202): read
the file's bytes, `parse_config` them into a fresh `Config()`, and only then
fill the active tab; a decode failure (the exception raised by `parse_config`)
aborts the operation before `fill_tab` runs, leaving the window unchanged. -/
def load_mpkminiplus (w : WindowState) (fileBytes : List Nat) : WindowState :=
  match Config.parse_config fileBytes with
  | .ok config => fill_tab w config (get_active_tab_index w)
  | .error _ => w

/-- Embedding of `UiMainWindow.save_mpkminiplus` (src/ui/main_ui.py:211): read
the active tab into a fresh `Config()` and write each value of `serialize()`
as one byte (`b.to_bytes(1, 'little')`), in order; the file content is the
`serialize()` list, byte for byte. -/
def save_mpkminiplus (w : WindowState) : List Nat :=
  (get_tab_programme Config.default w (get_active_tab_index w)).serialize

/-- File-system events observable at the boundary of the open/save dialogs. -/
inductive FileEvent where
  | readFile (path : String)
  | writeFile (path : String) (content : List Nat)
deriving DecidableEq, Repr

/-- Embedding of `UiMainWindow.file_open` (src/ui/main_ui.py:220).  In the
source, `filename` is the `(path, selectedFilter)` pair returned by the file
dialog; a pair is always truthy in Python, so only the `.endswith` test gates
the load — a cancelled dialog yields an empty path, which fails that test.
`fs` abstracts the file system's content per path. -/
def file_open (fs : String → List Nat) (w : WindowState) (dialogPath : String) :
    WindowState × List FileEvent :=
  if dialogPath.endsWith ".mpkminiplus" then
    (load_mpkminiplus w (fs dialogPath), [FileEvent.readFile dialogPath])
  else
    (w, [])

/-- Embedding of `UiMainWindow.file_save_as` (src/ui/main_ui.py:230): same
gating as `file_open`; on a matching path the bytes of `save_mpkminiplus` are
written to it. -/
def file_save_as (w : WindowState) (dialogPath : String) :
    WindowState × List FileEvent :=
  if dialogPath.endsWith ".mpkminiplus" then
    (w, [FileEvent.writeFile dialogPath (save_mpkminiplus w)])
  else
    (w, [])

/-- What the dialog of `show_popup_controller_not_found` returned: `close` is
the Close button, `retry` any other result (the `else` branch of the source). -/
inductive Choice where
  | retry
  | close
deriving DecidableEq, Repr

/-- How a run of the connect-retry loop ended. -/
inductive LoopExit where
  | nowConnected
  | appClosed
  | choicesExhausted
deriving DecidableEq, Repr

/-- Observable summary of one run of the connect-retry loop: how it ended, how
many `AkaiMPKPlus()` constructions (fresh discover+connect attempts, spec
section 4.4) its body performed, and how many Retry choices the user made. -/
structure LoopRun where
  exitKind : LoopExit
  constructions : Nat
  retries : Nat
deriving DecidableEq, Repr

/-- Embedding of `UiMainWindow.show_popup_controller_not_found`
(src/ui/main_ui.py:92): while `self.midi.connected` is false, show the blocking
dialog; Close calls `sys.exit()` (`appClosed`), anything else constructs one
fresh `AkaiMPKPlus()` and re-tests.  Modelled from the spec: each construction
performs exactly one discover+connect attempt, whose resulting `connected`
flag is `outcomes k` for the `k`-th construction made; `choices` are the
successive dialog results (the run is cut off, `choicesExhausted`, when the
modelled choices run out). -/
def show_popup_controller_not_found (outcomes : Nat → Bool) :
    Bool → Nat → List Choice → LoopRun
  | true, _, _ =>
    { exitKind := .nowConnected, constructions := 0, retries := 0 }
  | false, _, [] =>
    { exitKind := .choicesExhausted, constructions := 0, retries := 0 }
  | false, _, Choice.close :: _ =>
    { exitKind := .appClosed, constructions := 0, retries := 0 }
  | false, k, Choice.retry :: cs =>
    let r := show_popup_controller_not_found outcomes (outcomes k) (k + 1) cs
    { exitKind := r.exitKind, constructions := r.constructions + 1,
      retries := r.retries + 1 }

/-- A concrete valid configuration, used to witness the theorems below. -/
def cExample : Config :=
  { programme := 2, pad_channel := 1, key_channel := 16,
    pads := List.replicate 8 { ptype := 0, value := 60, mode := 0 },
    knobs := List.replicate 8 { cc := 1, low := 0, high := 127 },
    misc := { arp_mode := 1, joystick_mode := 0, clock_source := 1, octave := 4 } }

/-- A concrete tab state, used to witness the theorems below. -/
def tabExample : TabState :=
  { pad_channel := 3, key_channel := 4,
    pads := List.replicate 8 { ptype := 1, value := 20, mode := 1 },
    knobs := List.replicate 8 { cc := 7, low := 10, high := 100 },
    misc := { arp_mode := 0, joystick_mode := 2, clock_source := 0, octave := 8 } }

/-- A concrete window whose tabs all show `tabExample`, active tab 0. -/
def wExample : WindowState :=
  { tabs := fun _ => tabExample, activeIndex := 0 }

/-- A second concrete window, active tab 2, used as the load-time window. -/
def wExample2 : WindowState :=
  { tabs := fun _ => tabExample, activeIndex := 2 }

/-- A concrete file-system model mapping every path to an empty file. -/
def fsExample : String → List Nat :=
  fun _ => []
theorem parsePads_serialize (ps : List PadBinding) (rest : List Nat)
    (h : ps.all PadBinding.is_valid = true) :
    parsePads ps.length ((ps.map PadBinding.serialize).flatten ++ rest) =
      some (ps, rest) := by
  induction ps with
  | nil => simp [parsePads]
  | cons p ps ih =>
    obtain ⟨t, v, m⟩ := p
    simp only [List.all_cons, Bool.and_eq_true] at h
    simp [parsePads, PadBinding.serialize, h.1, ih h.2]

theorem parseKnobs_serialize (ks : List KnobBinding) (rest : List Nat)
    (h : ks.all KnobBinding.is_valid = true) :
    parseKnobs ks.length ((ks.map KnobBinding.serialize).flatten ++ rest) =
      some (ks, rest) := by
  induction ks with
  | nil => simp [parseKnobs]
  | cons k ks ih =>
    obtain ⟨cc, lo, hi⟩ := k
    simp only [List.all_cons, Bool.and_eq_true] at h
    simp [parseKnobs, KnobBinding.serialize, h.1, ih h.2]

theorem parseMisc_serialize (m : MiscSettings) (h : m.is_valid = true) :
    parseMisc m.serialize = some m := by
  simp [MiscSettings.serialize, parseMisc, h]

/-- Round-trip of the modelled codec: decoding the encoding of any valid
configuration recovers it. -/
theorem Config.parse_serialize (c : Config) (h : c.is_valid = true) :
    Config.parse_config c.serialize = .ok c := by
  simp only [Config.is_valid, Bool.and_eq_true, decide_eq_true_eq, beq_iff_eq] at h
  obtain ⟨⟨⟨⟨⟨⟨⟨⟨⟨hprog, hpc1⟩, hpc2⟩, hkc1⟩, hkc2⟩, hplen⟩, hpall⟩, hklen⟩,
    hkall⟩, hmisc⟩ := h
  have h1 := parsePads_serialize c.pads
    ((c.knobs.map KnobBinding.serialize).flatten ++ c.misc.serialize) hpall
  have h2 := parseKnobs_serialize c.knobs c.misc.serialize hkall
  have h3 := parseMisc_serialize c.misc hmisc
  rw [hplen] at h1
  rw [hklen] at h2
  simp [Config.parse_config, decodeConfig, Config.serialize, List.append_assoc,
    h1, h2, h3, hprog, hpc1, hpc2, hkc1, hkc2, Option.bind]


theorem length_flatten_pads (ps : List PadBinding) :
    ((ps.map PadBinding.serialize).flatten).length = 3 * ps.length := by
  induction ps with
  | nil => simp
  | cons p ps ih =>
    simp [PadBinding.serialize, ih]
    omega

theorem length_flatten_knobs (ks : List KnobBinding) :
    ((ks.map KnobBinding.serialize).flatten).length = 3 * ks.length := by
  induction ks with
  | nil => simp
  | cons k ks ih =>
    simp [KnobBinding.serialize, ih]
    omega

/-- For a valid configuration the encoding has the fixed payload length
3 + 3·8 + 3·8 + 4 = 55. -/
theorem serialize_length_valid (c : Config) (h : c.is_valid = true) :
    c.serialize.length = 55 := by
  simp only [Config.is_valid, Bool.and_eq_true, decide_eq_true_eq, beq_iff_eq] at h
  obtain ⟨⟨⟨⟨⟨⟨⟨⟨⟨_, _⟩, _⟩, _⟩, _⟩, hplen⟩, _⟩, hklen⟩, _⟩, _⟩ := h
  simp only [Config.serialize, MiscSettings.serialize, List.length_cons,
    List.length_append, List.length_nil, length_flatten_pads,
    length_flatten_knobs, hplen, hklen, numPads, numKnobs]

theorem pad_serialize_lt (p : PadBinding) (hp : p.is_valid = true) :
    ∀ b ∈ p.serialize, b < 128 := by
  simp only [PadBinding.is_valid, Bool.and_eq_true, decide_eq_true_eq] at hp
  obtain ⟨⟨h1, h2⟩, h3⟩ := hp
  intro b hb
  simp only [PadBinding.serialize, List.mem_cons, List.not_mem_nil, or_false] at hb
  rcases hb with h | h | h <;> omega

theorem knob_serialize_lt (k : KnobBinding) (hk : k.is_valid = true) :
    ∀ b ∈ k.serialize, b < 128 := by
  simp only [KnobBinding.is_valid, Bool.and_eq_true, decide_eq_true_eq] at hk
  obtain ⟨⟨h1, h2⟩, h3⟩ := hk
  intro b hb
  simp only [KnobBinding.serialize, List.mem_cons, List.not_mem_nil, or_false] at hb
  rcases hb with h | h | h <;> omega

theorem misc_serialize_lt (m : MiscSettings) (hm : m.is_valid = true) :
    ∀ b ∈ m.serialize, b < 128 := by
  simp only [MiscSettings.is_valid, Bool.and_eq_true, decide_eq_true_eq] at hm
  obtain ⟨⟨⟨h1, h2⟩, h3⟩, h4⟩ := hm
  intro b hb
  simp only [MiscSettings.serialize, List.mem_cons, List.not_mem_nil, or_false] at hb
  rcases hb with h | h | h | h <;> omega

/-- Every byte of the encoding of a valid configuration is 7-bit data: in
particular the encoding contains no SysEx framing byte (0xF0 or 0xF7). -/
theorem serialize_bytes_lt (c : Config) (h : c.is_valid = true) :
    ∀ b ∈ c.serialize, b < 128 := by
  simp only [Config.is_valid, Bool.and_eq_true, decide_eq_true_eq, beq_iff_eq] at h
  obtain ⟨⟨⟨⟨⟨⟨⟨⟨⟨hprog, hpc1⟩, hpc2⟩, hkc1⟩, hkc2⟩, _⟩, hpall⟩, _⟩, hkall⟩, hmisc⟩ := h
  intro b hb
  simp only [Config.serialize, List.mem_cons, List.mem_append,
    List.mem_flatten, List.mem_map] at hb
  rcases hb with h | h | h | h | h
  · omega
  · omega
  · omega
  · rcases h with h | h
    · obtain ⟨l, ⟨p, hp, hl⟩, hbl⟩ := h
      subst hl
      exact pad_serialize_lt p (by
        simpa using (List.all_eq_true.mp hpall) p hp) b hbl
    · obtain ⟨l, ⟨k, hk, hl⟩, hbl⟩ := h
      subst hl
      exact knob_serialize_lt k (by
        simpa using (List.all_eq_true.mp hkall) k hk) b hbl
  · exact misc_serialize_lt c.misc hmisc b h

theorem get_all_loop_trace (dev : Nat → Config) (l : List Nat) :
    ∀ w, (get_all_programmes_loop dev l w).2.2 =
      l.map (fun i => MidiEvent.fetch (i + 1)) := by
  induction l with
  | nil => intro w; rfl
  | cons i l ih =>
    intro w
    simp [get_all_programmes_loop, get_programme, ih]

/-- C1: for every Configuration that passes validation, decoding the byte
sequence produced by encoding it yields an equal Configuration:
`Config.parse_config` applied to the list produced by `Config.serialize`
reconstructs the configuration exactly. -/
theorem parse_config_serialize_roundtrip (c : Config) (h : c.is_valid = true) :
    Config.parse_config c.serialize = Except.ok c :=
  Config.parse_serialize c h

/-- C1 witness: the round trip at the concrete valid configuration
`cExample`. -/
theorem parse_config_serialize_roundtrip_witness :
    Config.is_valid cExample = true ∧
    Config.parse_config cExample.serialize = Except.ok cExample :=
  ⟨by decide, parse_config_serialize_roundtrip cExample (by decide)⟩

/-- C2: the `.mpkminiplus` file written by `save_mpkminiplus` contains exactly
the raw codec payload of the active tab's configuration — byte `i` of the file
equals byte `i` of the encoding — with the fixed payload length (no checksum or
trailer) and only 7-bit data bytes (no SysEx envelope bytes such as 0xF0/0xF7);
and `send_programme` passes the same `serialize()` output to
`send_midi_message` as the wire message. -/
theorem save_file_is_exact_payload (w : WindowState)
    (h : (get_tab_programme Config.default w (get_active_tab_index w)).is_valid
      = true) :
    save_mpkminiplus w =
      (get_tab_programme Config.default w (get_active_tab_index w)).serialize ∧
    (∀ i : Nat, (save_mpkminiplus w)[i]? =
      ((get_tab_programme Config.default w
        (get_active_tab_index w)).serialize)[i]?) ∧
    (save_mpkminiplus w).length = 55 ∧
    (∀ b ∈ save_mpkminiplus w, b < 128) ∧
    send_programme w (get_active_tab_index w) =
      [MidiEvent.send (save_mpkminiplus w)] :=
  ⟨rfl, fun _ => rfl, serialize_length_valid _ h, serialize_bytes_lt _ h, rfl⟩

/-- C2 witness: the file written from the concrete window `wExample`. -/
theorem save_file_is_exact_payload_witness :
    (get_tab_programme Config.default wExample
      (get_active_tab_index wExample)).is_valid = true ∧
    (save_mpkminiplus wExample).length = 55 :=
  ⟨by decide, (save_file_is_exact_payload wExample (by decide)).2.2.1⟩

/-- C3: writing the active tab's configuration with `save_mpkminiplus` and
loading the file back with `load_mpkminiplus` yields a configuration equal to
the saved one in every field except the programme slot, which is determined at
load time by the then-active tab index. -/
theorem save_load_roundtrip_except_slot (w w' : WindowState)
    (h : (get_tab_programme Config.default w (get_active_tab_index w)).is_valid
      = true) :
    get_tab_programme Config.default
        (load_mpkminiplus w' (save_mpkminiplus w)) (get_active_tab_index w') =
      { get_tab_programme Config.default w (get_active_tab_index w) with
        programme := get_active_tab_index w' + 1 } := by
  unfold load_mpkminiplus save_mpkminiplus
  rw [Config.parse_serialize _ h]
  simp [get_tab_programme, fill_tab, Config.toTab, get_active_tab_index,
    Function.update_same]

/-- C3 witness: save from `wExample` (active tab 0), load into `wExample2`
(active tab 2). -/
theorem save_load_roundtrip_except_slot_witness :
    (get_tab_programme Config.default wExample
      (get_active_tab_index wExample)).is_valid = true ∧
    get_tab_programme Config.default
        (load_mpkminiplus wExample2 (save_mpkminiplus wExample))
        (get_active_tab_index wExample2) =
      { get_tab_programme Config.default wExample (get_active_tab_index wExample)
        with programme := get_active_tab_index wExample2 + 1 } :=
  ⟨by decide, save_load_roundtrip_except_slot wExample wExample2 (by decide)⟩

/-- C4: when the file's bytes fail to decode, the load operation fails as a
whole: `load_mpkminiplus` reaches `fill_tab` only after `parse_config`
succeeded, so on a `MalformedInput` failure the window — in particular the
currently displayed tab — is left completely unchanged. -/
theorem load_failure_leaves_window_unchanged (w : WindowState) (bs : List Nat)
    (e : CodecError) (h : Config.parse_config bs = Except.error e) :
    load_mpkminiplus w bs = w := by
  simp [load_mpkminiplus, h]

/-- C4 witness: loading an empty byte list (wrong length) into `wExample`. -/
theorem load_failure_leaves_window_unchanged_witness :
    Config.parse_config [] = Except.error CodecError.MalformedInput ∧
    load_mpkminiplus wExample [] = wExample :=
  ⟨rfl, load_failure_leaves_window_unchanged wExample [] CodecError.MalformedInput rfl⟩

/-- C5: `send_programme` hands `send_midi_message` exactly the `serialize()`
bytes of the configuration read from the tab, and that configuration's slot is
the tab index plus one. -/
theorem send_programme_sends_exact_encoding (w : WindowState) (p_i : Nat) :
    send_programme w p_i =
      [MidiEvent.send ((get_tab_programme Config.default w p_i).serialize)] ∧
    (get_tab_programme Config.default w p_i).programme = p_i + 1 :=
  ⟨rfl, rfl⟩

/-- C6: programme-slot numbering is consistent across operations: `get_ram`
fetches slot 0, `send_ram` forces the outgoing configuration's programme field
to 0, `get_all_programmes` fetches slots 1..8 in ascending order, and
`get_active_programme` fetches the active tab index plus one. -/
theorem slot_numbering_consistent (dev : Nat → Config) (w : WindowState) :
    (get_ram dev w).2.2 = [MidiEvent.fetch 0] ∧
    send_ram w = [MidiEvent.send
      ({ get_tab_programme Config.default w (get_active_tab_index w) with
         programme := 0 }).serialize] ∧
    (get_all_programmes dev w).2.2 =
      [MidiEvent.fetch 1, MidiEvent.fetch 2, MidiEvent.fetch 3,
       MidiEvent.fetch 4, MidiEvent.fetch 5, MidiEvent.fetch 6,
       MidiEvent.fetch 7, MidiEvent.fetch 8] ∧
    (get_active_programme dev w).2.2 =
      [MidiEvent.fetch (get_active_tab_index w + 1)] := by
  refine ⟨rfl, rfl, ?_, rfl⟩
  rw [get_all_programmes, get_all_loop_trace]
  rfl

/-- C7: the connect-retry loop is UI-driven and performs exactly one fresh
`AkaiMPKPlus()` construction (one discover+connect attempt) per Retry choice:
in every run, the number of constructions equals the number of Retry choices;
the loop exits as connected only if it was already connected (zero retries) or
the last construction's connection attempt succeeded; the process is terminated
(`sys.exit`) only on a Close choice made while disconnected. -/
theorem retry_loop_one_attempt_per_retry (outcomes : Nat → Bool) (conn : Bool)
    (k : Nat) (cs : List Choice) :
    (show_popup_controller_not_found outcomes conn k cs).constructions =
      (show_popup_controller_not_found outcomes conn k cs).retries ∧
    ((show_popup_controller_not_found outcomes conn k cs).exitKind =
        LoopExit.nowConnected →
      (conn = true ∧
        (show_popup_controller_not_found outcomes conn k cs).retries = 0) ∨
      (0 < (show_popup_controller_not_found outcomes conn k cs).retries ∧
        outcomes (k +
          (show_popup_controller_not_found outcomes conn k cs).retries - 1) =
          true)) ∧
    ((show_popup_controller_not_found outcomes conn k cs).exitKind =
        LoopExit.appClosed → conn = false) ∧
    (conn = true → show_popup_controller_not_found outcomes conn k cs =
      { exitKind := LoopExit.nowConnected, constructions := 0,
        retries := 0 }) := by
  induction cs generalizing conn k with
  | nil =>
    cases conn
    · refine ⟨rfl, ?_, ?_, ?_⟩
      · intro h; simp [show_popup_controller_not_found] at h
      · intro _; rfl
      · intro h; simp at h
    · refine ⟨rfl, ?_, ?_, ?_⟩
      · intro _; exact Or.inl ⟨rfl, rfl⟩
      · intro h; simp [show_popup_controller_not_found] at h
      · intro _; rfl
  | cons ch cs ih =>
    cases conn
    · cases ch
      · obtain ⟨ih1, ih2, ih3, ih4⟩ := ih (outcomes k) (k + 1)
        refine ⟨?_, ?_, ?_, ?_⟩
        · simpa [show_popup_controller_not_found] using ih1
        · intro h
          simp only [show_popup_controller_not_found] at h ⊢
          rcases ih2 h with ⟨hconn, hz⟩ | ⟨hpos, hout⟩
          · refine Or.inr ⟨by omega, ?_⟩
            rw [hz]
            have he : k + (0 + 1) - 1 = k := by omega
            rw [he, hconn]
          · refine Or.inr ⟨by omega, ?_⟩
            have he : k + ((show_popup_controller_not_found outcomes (outcomes k)
              (k + 1) cs).retries + 1) - 1 =
              k + 1 + (show_popup_controller_not_found outcomes (outcomes k)
                (k + 1) cs).retries - 1 := by omega
            rw [he, hout]
        · intro _; rfl
        · intro h; simp at h
      · refine ⟨rfl, ?_, ?_, ?_⟩
        · intro h; simp [show_popup_controller_not_found] at h
        · intro _; rfl
        · intro h; simp at h
    · refine ⟨rfl, ?_, ?_, ?_⟩
      · intro _; exact Or.inl ⟨rfl, rfl⟩
      · intro h; simp [show_popup_controller_not_found] at h
      · intro _; rfl

/-- C7 witness: disconnected start, one Retry that succeeds — the loop exits
connected with exactly one construction; the exit condition of the theorem is
discharged at this concrete run. -/
theorem retry_loop_one_attempt_per_retry_witness :
    (false = true ∧
      (show_popup_controller_not_found (fun _ => true) false 0
        [Choice.retry]).retries = 0) ∨
    (0 < (show_popup_controller_not_found (fun _ => true) false 0
        [Choice.retry]).retries ∧
      (fun _ => true : Nat → Bool) (0 +
        (show_popup_controller_not_found (fun _ => true) false 0
          [Choice.retry]).retries - 1) = true) :=
  (retry_loop_one_attempt_per_retry (fun _ => true) false 0 [Choice.retry]).2.1
    rfl

/-- C8: no Configuration value is cached across operations.  The window state
(structure `WindowState`) carries no Config component, and every operation
builds its configuration afresh inside its own scope: replacing the fresh
`Config()` (here `Config.default`) threaded through an operation by an
arbitrary pre-existing configuration `c` changes nothing — `get_tab_programme`
overrides every field — so no operation can observe a Configuration left over
from a previous operation. -/
theorem no_config_caching (w : WindowState) (c : Config) (p_i p_to : Nat) :
    get_tab_programme c w p_i = get_tab_programme Config.default w p_i ∧
    send_programme w p_i =
      [MidiEvent.send ((get_tab_programme c w p_i).serialize)] ∧
    send_ram w = [MidiEvent.send
      ({ get_tab_programme c w (get_active_tab_index w) with
         programme := 0 }).serialize] ∧
    copy_to w p_to =
      (fill_tab w
        { get_tab_programme c w (get_active_tab_index w) with
          pad_channel := (w.tabs (get_active_tab_index w)).pad_channel + 1,
          key_channel := (w.tabs (get_active_tab_index w)).key_channel + 1 }
        (p_to - 1), []) ∧
    save_mpkminiplus w =
      (get_tab_programme c w (get_active_tab_index w)).serialize :=
  ⟨rfl, rfl, rfl, rfl, rfl⟩

/-- C9: `copy_to p_to` fills tab `p_to - 1` with exactly the active tab's
configuration — slot field set to the active tab index plus one, `pad_channel`
and `key_channel` each incremented by exactly 1 — leaves every other tab and
the active index unchanged, and performs no device communication at all. -/
theorem copy_to_fills_target_tab (w : WindowState) (p_to : Nat) :
    (copy_to w p_to).2 = [] ∧
    (copy_to w p_to).1.tabs (p_to - 1) =
      { pad_channel := (w.tabs (get_active_tab_index w)).pad_channel + 1,
        key_channel := (w.tabs (get_active_tab_index w)).key_channel + 1,
        pads := (w.tabs (get_active_tab_index w)).pads,
        knobs := (w.tabs (get_active_tab_index w)).knobs,
        misc := (w.tabs (get_active_tab_index w)).misc } ∧
    (get_tab_programme Config.default w (get_active_tab_index w)).programme =
      get_active_tab_index w + 1 ∧
    (∀ j, j ≠ p_to - 1 → (copy_to w p_to).1.tabs j = w.tabs j) ∧
    (copy_to w p_to).1.activeIndex = w.activeIndex := by
  refine ⟨rfl, ?_, rfl, ?_, rfl⟩
  · simp [copy_to, fill_tab, Config.toTab, get_tab_programme,
      get_active_tab_index, Function.update_same]
  · intro j hj
    simp [copy_to, fill_tab, Function.update_noteq hj]

/-- C9 witness: copying the active tab of `wExample` to tab 2 leaves tab 0
untouched and sends nothing. -/
theorem copy_to_fills_target_tab_witness :
    (copy_to wExample 2).2 = [] ∧
    (copy_to wExample 2).1.tabs 0 = wExample.tabs 0 :=
  ⟨(copy_to_fills_target_tab wExample 2).1,
   (copy_to_fills_target_tab wExample 2).2.2.2.1 0 (by decide)⟩

/-- C10: `file_open` and `file_save_as` touch the file system only when the
dialog's path ends with `.mpkminiplus`: the read/write event list is empty and
the window unchanged for every other path, including the empty path produced by
cancelling the dialog (which never ends with the suffix). -/
theorem file_dialogs_gated_by_suffix (fs : String → List Nat) (w : WindowState)
    (p : String) :
    (file_open fs w p).2 =
      (if p.endsWith ".mpkminiplus" then [FileEvent.readFile p] else []) ∧
    (file_save_as w p).2 =
      (if p.endsWith ".mpkminiplus" then
        [FileEvent.writeFile p (save_mpkminiplus w)] else []) ∧
    (p.endsWith ".mpkminiplus" = false →
      file_open fs w p = (w, []) ∧ file_save_as w p = (w, [])) ∧
    String.endsWith "" ".mpkminiplus" = false := by
  refine ⟨?_, ?_, ?_, by decide⟩
  · rcases h : p.endsWith ".mpkminiplus" <;> simp [file_open, h]
  · rcases h : p.endsWith ".mpkminiplus" <;> simp [file_save_as, h]
  · intro h
    exact ⟨by simp [file_open, h], by simp [file_save_as, h]⟩

/-- C10 witness: a cancelled dialog (empty path) neither reads nor writes and
leaves the window unchanged. -/
theorem file_dialogs_gated_by_suffix_witness :
    file_open fsExample wExample "" = (wExample, []) ∧
    file_save_as wExample "" = (wExample, []) :=
  (file_dialogs_gated_by_suffix fsExample wExample "").2.2.1 (by decide)
